import Mathlib

/-!
Verification development for the botmother-agent repository.

Shallow embedding of the two core modules:
  * `src/botmother_agent/validator.py` — the structural flow validator;
  * `src/botmother_agent/agent.py`    — the phase orchestrator (LangGraph agent).

Modelling conventions:
  * JSON documents are modelled as the inductive `Json` below; `validate_flow`
    is modelled from the point where `json.loads` has already succeeded
    (all claims below quantify over parsed documents).  JSON numbers are
    modelled as integers — no claim involves non-integer numbers.
  * Python exceptions are modelled with `Except PyErr`: calling `.get` on a
    non-dict raises `AttributeError`, and using an unhashable value (a list or
    a dict) in a set/dict membership test raises `TypeError`, exactly as the
    source would.
  * Python sets are modelled as duplicate-free lists (only membership and
    insertion are used); Python dicts as insertion-ordered association lists
    where assignment to an existing key overwrites in place.
  * Error messages are rebuilt from the source f-strings; the apostrophe
    character is produced via `Char.ofNat 39`.
-/

/-- A parsed JSON value (the result of `json.loads`). -/
inductive Json where
  | null : Json
  | bool : Bool → Json
  | num : Int → Json
  | str : String → Json
  | arr : List Json → Json
  | obj : List (String × Json) → Json

mutual

/-- Decidable structural equality of JSON values (Python `==` on parsed
values); written by hand because `deriving DecidableEq` does not handle the
nested `List` occurrences. -/
def Json.decEq : (a b : Json) → Decidable (a = b)
  | .null, .null => .isTrue rfl
  | .null, .bool _ => .isFalse (fun h => Json.noConfusion h)
  | .null, .num _ => .isFalse (fun h => Json.noConfusion h)
  | .null, .str _ => .isFalse (fun h => Json.noConfusion h)
  | .null, .arr _ => .isFalse (fun h => Json.noConfusion h)
  | .null, .obj _ => .isFalse (fun h => Json.noConfusion h)
  | .bool _, .null => .isFalse (fun h => Json.noConfusion h)
  | .bool a, .bool b =>
      if h : a = b then .isTrue (by rw [h])
      else .isFalse (fun he => h (Json.bool.inj he))
  | .bool _, .num _ => .isFalse (fun h => Json.noConfusion h)
  | .bool _, .str _ => .isFalse (fun h => Json.noConfusion h)
  | .bool _, .arr _ => .isFalse (fun h => Json.noConfusion h)
  | .bool _, .obj _ => .isFalse (fun h => Json.noConfusion h)
  | .num _, .null => .isFalse (fun h => Json.noConfusion h)
  | .num _, .bool _ => .isFalse (fun h => Json.noConfusion h)
  | .num a, .num b =>
      if h : a = b then .isTrue (by rw [h])
      else .isFalse (fun he => h (Json.num.inj he))
  | .num _, .str _ => .isFalse (fun h => Json.noConfusion h)
  | .num _, .arr _ => .isFalse (fun h => Json.noConfusion h)
  | .num _, .obj _ => .isFalse (fun h => Json.noConfusion h)
  | .str _, .null => .isFalse (fun h => Json.noConfusion h)
  | .str _, .bool _ => .isFalse (fun h => Json.noConfusion h)
  | .str _, .num _ => .isFalse (fun h => Json.noConfusion h)
  | .str a, .str b =>
      if h : a = b then .isTrue (by rw [h])
      else .isFalse (fun he => h (Json.str.inj he))
  | .str _, .arr _ => .isFalse (fun h => Json.noConfusion h)
  | .str _, .obj _ => .isFalse (fun h => Json.noConfusion h)
  | .arr _, .null => .isFalse (fun h => Json.noConfusion h)
  | .arr _, .bool _ => .isFalse (fun h => Json.noConfusion h)
  | .arr _, .num _ => .isFalse (fun h => Json.noConfusion h)
  | .arr _, .str _ => .isFalse (fun h => Json.noConfusion h)
  | .arr xs, .arr ys =>
      match Json.decEqList xs ys with
      | .isTrue h => .isTrue (by rw [h])
      | .isFalse h => .isFalse (fun he => h (Json.arr.inj he))
  | .arr _, .obj _ => .isFalse (fun h => Json.noConfusion h)
  | .obj _, .null => .isFalse (fun h => Json.noConfusion h)
  | .obj _, .bool _ => .isFalse (fun h => Json.noConfusion h)
  | .obj _, .num _ => .isFalse (fun h => Json.noConfusion h)
  | .obj _, .str _ => .isFalse (fun h => Json.noConfusion h)
  | .obj _, .arr _ => .isFalse (fun h => Json.noConfusion h)
  | .obj xs, .obj ys =>
      match Json.decEqKV xs ys with
      | .isTrue h => .isTrue (by rw [h])
      | .isFalse h => .isFalse (fun he => h (Json.obj.inj he))

/-- Decidable equality of JSON array element lists. -/
def Json.decEqList : (xs ys : List Json) → Decidable (xs = ys)
  | [], [] => .isTrue rfl
  | [], _ :: _ => .isFalse (fun h => List.noConfusion h)
  | _ :: _, [] => .isFalse (fun h => List.noConfusion h)
  | x :: xs, y :: ys =>
      match Json.decEq x y with
      | .isTrue h1 =>
        (match Json.decEqList xs ys with
         | .isTrue h2 => .isTrue (by rw [h1, h2])
         | .isFalse h2 => .isFalse (fun he => h2 (by injection he)))
      | .isFalse h1 => .isFalse (fun he => h1 (by injection he))

/-- Decidable equality of JSON object entry lists. -/
def Json.decEqKV :
    (xs ys : List (String × Json)) → Decidable (xs = ys)
  | [], [] => .isTrue rfl
  | [], _ :: _ => .isFalse (fun h => List.noConfusion h)
  | _ :: _, [] => .isFalse (fun h => List.noConfusion h)
  | (k1, v1) :: xs, (k2, v2) :: ys =>
      if hk : k1 = k2 then
        match Json.decEq v1 v2 with
        | .isTrue h1 =>
          (match Json.decEqKV xs ys with
           | .isTrue h2 => .isTrue (by rw [hk, h1, h2])
           | .isFalse h2 => .isFalse (fun he => h2 (by injection he)))
        | .isFalse h1 =>
            .isFalse (fun he => h1 (by
              injection he with hp _
              injection hp))
      else
        .isFalse (fun he => hk (by
          injection he with hp _
          injection hp))

end

instance : DecidableEq Json := Json.decEq

/-- Python truthiness (`if not x`) on JSON values: `None`, `False`, `0`, `""`,
`[]` and the empty dict are falsy. -/
def Json.truthy : Json → Bool
  | .null => false
  | .bool b => b
  | .num n => if n = 0 then false else true
  | .str s => if s = "" then false else true
  | .arr [] => false
  | .arr (_ :: _) => true
  | .obj [] => false
  | .obj (_ :: _) => true

/-- Python hashability: lists and dicts are unhashable (membership tests on
them raise `TypeError`). -/
def Json.hashable : Json → Bool
  | .arr _ => false
  | .obj _ => false
  | _ => true

/-- Python errors the validator / agent can raise. -/
inductive PyErr where
  /-- `AttributeError`: `.get` called on a non-dict value. -/
  | attributeError : PyErr
  /-- `TypeError`: unhashable value used in a set/dict membership test. -/
  | typeError : PyErr
  /-- A failure raised by the external completion service call
      (network/timeout/quota — opaque to the core). -/
  | llmFailure : String → PyErr
deriving DecidableEq

/-- Decidable equality of `Except` results (used to evaluate the embedding
on concrete inputs). -/
def Except.decEqResult {ε α : Type} [DecidableEq ε] [DecidableEq α] :
    (a b : Except ε α) → Decidable (a = b)
  | .error a, .error b =>
      if h : a = b then .isTrue (by rw [h])
      else .isFalse (fun he => h (by injection he))
  | .error _, .ok _ => .isFalse (fun h => Except.noConfusion h)
  | .ok _, .error _ => .isFalse (fun h => Except.noConfusion h)
  | .ok a, .ok b =>
      if h : a = b then .isTrue (by rw [h])
      else .isFalse (fun he => h (by injection he))

instance {ε α : Type} [DecidableEq ε] [DecidableEq α] :
    DecidableEq (Except ε α) := Except.decEqResult

/-- `d.get(k)` on a string-keyed dict, `None` default (absent key ↦ `null`). -/
def dictGetS (kvs : List (String × Json)) (k : String) : Json :=
  match kvs with
  | [] => Json.null
  | (k0, v) :: rest => if k0 = k then v else dictGetS rest k

/-- `k in d` for a string-keyed dict. -/
def dictMemS (kvs : List (String × Json)) (k : String) : Bool :=
  match kvs with
  | [] => false
  | (k0, _) :: rest => if k0 = k then true else dictMemS rest k

/-- `node.get(key)` — raises `AttributeError` on a non-dict, returns `None`
for an absent key, mirroring Python `dict.get`. -/
def pyGet (j : Json) (k : String) : Except PyErr Json :=
  match j with
  | .obj kvs => .ok (dictGetS kvs k)
  | _ => .error .attributeError

/-- `node.get(key, default)`. -/
def pyGetD (j : Json) (k : String) (d : Json) : Except PyErr Json :=
  match j with
  | .obj kvs => .ok (if dictMemS kvs k then dictGetS kvs k else d)
  | _ => .error .attributeError

/-- Guard modelling Python hashing of a value for a set/dict membership test. -/
def requireHashable (j : Json) : Except PyErr Unit :=
  if j.hashable then .ok () else .error .typeError

/-- Membership of a JSON value in a Python set modelled as a list. -/
def jmem (x : Json) (xs : List Json) : Bool :=
  match xs with
  | [] => false
  | y :: ys => if y = x then true else jmem x ys

/-- Json-keyed dict lookup (`d[k]`, used where presence is already known). -/
def dictGetJ (kvs : List (Json × Json)) (k : Json) : Option Json :=
  match kvs with
  | [] => none
  | (k0, v) :: rest => if k0 = k then some v else dictGetJ rest k

/-- `k in d` for a Json-keyed dict. -/
def dictMemJ (kvs : List (Json × Json)) (k : Json) : Bool :=
  match kvs with
  | [] => false
  | (k0, _) :: rest => if k0 = k then true else dictMemJ rest k

/-- `d[k] = v` on an insertion-ordered dict: overwrite in place or append. -/
def dictSetJ (kvs : List (Json × Json)) (k : Json) (v : Json) :
    List (Json × Json) :=
  match kvs with
  | [] => [(k, v)]
  | (k0, v0) :: rest =>
      if k0 = k then (k0, v) :: rest else (k0, v0) :: dictSetJ rest k v

/-- `outgoing.setdefault(source, []).append(handle)`. -/
def outgoingAdd (kvs : List (Json × List Json)) (k : Json) (h : Json) :
    List (Json × List Json) :=
  match kvs with
  | [] => [(k, [h])]
  | (k0, hs) :: rest =>
      if k0 = k then (k0, hs ++ [h]) :: rest
      else (k0, hs) :: outgoingAdd rest k h

/-- `k in outgoing`. -/
def outgoingMem (kvs : List (Json × List Json)) (k : Json) : Bool :=
  match kvs with
  | [] => false
  | (k0, _) :: rest => if k0 = k then true else outgoingMem rest k

/-- Membership of a (hashable) JSON value in a set of Python strings: a
non-string hashable value is simply never equal to any string. -/
def jsonInStrSet (j : Json) (ss : List String) : Bool :=
  match j with
  | .str s => ss.contains s
  | _ => false

/-- String-keyed lookup into a static table. -/
def strLookup {α : Type} (tbl : List (String × α)) (k : String) : Option α :=
  match tbl with
  | [] => none
  | (k0, v) :: rest => if k0 = k then some v else strLookup rest k

-- ── Catalogues (validator.py, lines 10–72) ───────────────────────────────

/-- `TRIGGER_TYPES` from validator.py. -/
def TRIGGER_TYPES : List String :=
  ["CommandTriggerNode", "MessageTriggerNode", "CallbackQueryTriggerNode",
   "CallbackButtonTriggerNode", "ReplyButtonTriggerNode", "CronTriggerNode"]

/-- `ALL_NODE_TYPES` from validator.py (triggers plus every other type). -/
def ALL_NODE_TYPES : List String :=
  TRIGGER_TYPES ++
  ["SendTextMessageNode", "SendPhotoNode", "SendVideoNode", "SendAudioNode",
   "SendFileNode", "SendAnimationNode", "SendVoiceNode", "SendVideoNoteNode",
   "SendLocationNode", "SendContactNode", "SendPollNode", "SendStickerNode",
   "SendMediaGroupNode", "SendVenueNode", "SendDiceNode",
   "EditMessageNode", "DeleteMessageNode", "ForwardMessageNode",
   "CopyMessageNode", "PinMessageNode", "UnpinMessageNode",
   "UnpinAllMessagesNode",
   "ChatActionNode", "CallbackQueryAnswerNode", "CheckMembershipNode",
   "IfConditionNode", "RandomNode", "ForLoopNode", "ForLoopContinueNode",
   "PauseNode",
   "VariableNode", "StateNode", "CollectionNode",
   "LoadCollectionItemNode", "LoadCollectionListNode",
   "UpdateCollectionNode", "DeleteCollectionNode",
   "HTTPRequestNode", "CustomCodeNode", "SendToAdminNode", "DelayNode"]

/-- `REQUIRED_FIELDS` from validator.py. -/
def REQUIRED_FIELDS : List (String × List String) :=
  [("CommandTriggerNode", ["command"]),
   ("SendTextMessageNode", ["messageText"]),
   ("SendPhotoNode", ["photo"]),
   ("SendVideoNode", ["video"]),
   ("SendAudioNode", ["audio"]),
   ("SendFileNode", ["document"]),
   ("SendLocationNode", ["latitude", "longitude"]),
   ("SendContactNode", ["phoneNumber", "firstName"]),
   ("HTTPRequestNode", ["method", "url"]),
   ("CustomCodeNode", ["jsCode"]),
   ("VariableNode", ["variableName", "operation"]),
   ("StateNode", ["key"]),
   ("CollectionNode", ["collection_name"]),
   ("LoadCollectionItemNode", ["collection", "contextKey"]),
   ("LoadCollectionListNode", ["collection", "contextKey"]),
   ("DelayNode", ["delay"]),
   ("CheckMembershipNode", ["channelId"]),
   ("CronTriggerNode", ["schedule"]),
   ("ForLoopNode", ["loopMode"]),
   ("SendToAdminNode", ["adminChatId", "messageText"])]

/-- `CONDITIONAL_HANDLES` from validator.py. -/
def CONDITIONAL_HANDLES : List (String × List String) :=
  [("IfConditionNode",
     ["true", "false", "branch_0", "branch_1", "branch_2", "branch_3"]),
   ("ForLoopNode", ["loop-body", "no-items"]),
   ("ForLoopContinueNode", ["loop-continue", "loop-done"]),
   ("LoadCollectionItemNode", ["found", "not_found"]),
   ("CheckMembershipNode", ["is-member", "not-member"]),
   ("RandomNode",
     ["option_0", "option_1", "option_2", "option_3", "option_4",
      "option_5", "option_6", "option_7", "option_8", "option_9"])]

/-- The keys of `CONDITIONAL_HANDLES` (the conditional node types). -/
def conditionalKeys : List String := CONDITIONAL_HANDLES.map Prod.fst

-- ── Defects ──────────────────────────────────────────────────────────────

/-- One structural defect reported by `validate_flow`; each constructor
corresponds to exactly one `errors.append(...)` site (the carried values are
the values interpolated into the source f-string at that site). -/
inductive Defect where
  /-- "Flow must be a JSON object" -/
  | notObject : Defect
  /-- "Missing or invalid 'nodes' array" -/
  | missingNodes : Defect
  /-- "Missing or invalid 'edges' array" -/
  | missingEdges : Defect
  /-- "Flow has no nodes" -/
  | noNodes : Defect
  /-- "Node at index {i} has no 'id'" -/
  | nodeNoId (i : Nat) : Defect
  /-- "Node '{nid}' has no 'type'" -/
  | nodeNoType (nid : Json) : Defect
  /-- "Duplicate node ID: '{nid}'" -/
  | duplicateNodeId (nid : Json) : Defect
  /-- "Node '{nid}': unknown type '{ntype}'" -/
  | unknownType (nid ntype : Json) : Defect
  /-- "Node '{nid}' ({ntype}): missing required field '{field}'" -/
  | missingField (nid ntype : Json) (field : String) : Defect
  /-- "Node '{nid}': missing 'position'" -/
  | missingPosition (nid : Json) : Defect
  /-- "Flow must have at least one trigger node (…)" -/
  | noTrigger : Defect
  /-- "Edge at index {i}: missing 'source' or 'target'" -/
  | edgeMissingSourceTarget (i : Nat) : Defect
  /-- "Duplicate edge ID: '{eid}'" -/
  | duplicateEdgeId (eid : Json) : Defect
  /-- "Edge '{eid or i}': source '{source}' does not exist" -/
  | danglingSource (ref source : Json) : Defect
  /-- "Edge '{eid or i}': target '{target}' does not exist" -/
  | danglingTarget (ref target : Json) : Defect
  /-- "Edge '{eid or i}': invalid sourceHandle '{handle}' for {src_type} (…)" -/
  | invalidHandle (ref handle srcType : Json) : Defect
  /-- "Node '{nid}' ({ntype}): conditional node has no outgoing edges" -/
  | conditionalNoOutgoing (nid ntype : Json) : Defect
  /-- "Node '{nid}' ({ntype}): trigger node has no outgoing edges" -/
  | triggerNoOutgoing (nid ntype : Json) : Defect
deriving DecidableEq

-- ── Validator (validator.py, `validate_flow`) ────────────────────────────

/-- Accumulator of the per-node loop (validator.py lines 101–140). -/
structure NodeAcc where
  errors : List Defect
  node_ids : List Json
  node_types : List (Json × Json)
  has_trigger : Bool
deriving DecidableEq

/-- Body of the per-node loop (`for i, node in enumerate(nodes)`), written
with explicit matches: a non-dict node makes `node.get("id")` raise
`AttributeError`; the Python `continue`s become early `.ok` results; the
hashing of `nid` (at `nid in node_ids`) and of `ntype` (at
`ntype not in ALL_NODE_TYPES`) can raise `TypeError`. -/
def checkNode (acc : NodeAcc) (i : Nat) (node : Json) : Except PyErr NodeAcc :=
  match node with
  | Json.obj nkvs =>
    let nid := dictGetS nkvs "id"                     -- node.get("id")
    let ntype := dictGetS nkvs "type"                 -- node.get("type")
    let data :=                                       -- node.get("data", ..)
      if dictMemS nkvs "data" then dictGetS nkvs "data" else Json.obj []
    if nid.truthy = false then
      .ok { acc with errors := acc.errors ++ [Defect.nodeNoId i] }
    else if ntype.truthy = false then
      .ok { acc with errors := acc.errors ++ [Defect.nodeNoType nid] }
    else if nid.hashable = false then .error .typeError
    else
      let errs := acc.errors ++
        (if jmem nid acc.node_ids then [Defect.duplicateNodeId nid] else [])
      let node_ids :=
        if jmem nid acc.node_ids then acc.node_ids else acc.node_ids ++ [nid]
      let node_types := dictSetJ acc.node_types nid ntype
      if ntype.hashable = false then .error .typeError
      else
        let errs := errs ++
          (if jsonInStrSet ntype ALL_NODE_TYPES then []
           else [Defect.unknownType nid ntype])
        let has_trigger := acc.has_trigger || jsonInStrSet ntype TRIGGER_TYPES
        let errs := errs ++
          (match ntype with
           | Json.str t =>
             match strLookup REQUIRED_FIELDS t with
             | some fields =>
               match data with
               | Json.obj dkvs =>
                 fields.filterMap (fun f =>
                   if dictMemS dkvs f = false ∨ dictGetS dkvs f = Json.null ∨
                      dictGetS dkvs f = Json.str "" then
                     some (Defect.missingField nid ntype f)
                   else none)
               | _ => []                -- `isinstance(data, dict)` is False
             | none => []
           | _ => [])
        let errs := errs ++
          (if dictMemS nkvs "position" then [] else [Defect.missingPosition nid])
        .ok { errors := errs, node_ids := node_ids, node_types := node_types,
              has_trigger := has_trigger }
  | _ => .error .attributeError

/-- Accumulator of the per-edge loop (validator.py lines 146–183). -/
structure EdgeAcc where
  errors : List Defect
  edge_ids : List Json
  outgoing : List (Json × List Json)
deriving DecidableEq

/-- The sourceHandle vocabulary check for one edge (validator.py lines
174–183): the defects this edge appends for an invalid `sourceHandle`, or
`TypeError` when an unhashable `sourceHandle` is tested against the
vocabulary (`handle not in valid`). -/
def handleCheck (node_types : List (Json × Json))
    (source handle refJ : Json) : Except PyErr (List Defect) :=
  if dictMemJ node_types source && handle.truthy then
    match dictGetJ node_types source with
    | some (Json.str t) =>                       -- node_types[source]
      (match strLookup CONDITIONAL_HANDLES t with
       | some valid =>
         if handle.hashable = false then .error .typeError
         else .ok (if jsonInStrSet handle valid then []
           else [Defect.invalidHandle refJ handle (Json.str t)])
       | none => .ok [])
    | _ => .ok []              -- non-string type tag: not in the table
  else .ok []

/-- Body of the per-edge loop (`for i, edge in enumerate(edges)`), explicit
matches as in `checkNode`; the hashing of `eid` (at `eid in edge_ids`), of
`source`/`target` (dangling-reference membership tests) and of `handle`
(inside `handleCheck`) can raise `TypeError`. -/
def checkEdge (node_ids : List Json) (node_types : List (Json × Json))
    (acc : EdgeAcc) (i : Nat) (edge : Json) : Except PyErr EdgeAcc :=
  match edge with
  | Json.obj ekvs =>
    let eid := dictGetS ekvs "id"                       -- edge.get("id")
    let source := dictGetS ekvs "source"                -- edge.get("source")
    let target := dictGetS ekvs "target"                -- edge.get("target")
    let handle := dictGetS ekvs "sourceHandle"
    if source.truthy = false || target.truthy = false then
      .ok { acc with errors := acc.errors ++ [Defect.edgeMissingSourceTarget i] }
    else if eid.truthy && !eid.hashable then .error .typeError
    else
      let errs := acc.errors ++
        (if eid.truthy && jmem eid acc.edge_ids then [Defect.duplicateEdgeId eid]
         else [])
      let edge_ids :=
        if eid.truthy then
          (if jmem eid acc.edge_ids then acc.edge_ids else acc.edge_ids ++ [eid])
        else acc.edge_ids
      let refJ := if eid.truthy then eid else Json.num i   -- `eid or i`
      if source.hashable = false then .error .typeError
      else
        let errs := errs ++
          (if jmem source node_ids then []
           else [Defect.danglingSource refJ source])
        if target.hashable = false then .error .typeError
        else
          let errs := errs ++
            (if jmem target node_ids then []
             else [Defect.danglingTarget refJ target])
          let outgoing :=
            if jmem source node_ids then outgoingAdd acc.outgoing source handle
            else acc.outgoing
          match handleCheck node_types source handle refJ with
          | .error e => .error e
          | .ok extra =>
            .ok { errors := errs ++ extra, edge_ids := edge_ids,
                  outgoing := outgoing }
  | _ => .error .attributeError

/-- The per-node loop over `nodes`, carrying the running index of
`enumerate`. -/
def nodePassAux (i : Nat) (acc : NodeAcc) : List Json → Except PyErr NodeAcc
  | [] => .ok acc
  | n :: rest =>
    match checkNode acc i n with
    | .error e => .error e
    | .ok acc2 => nodePassAux (i + 1) acc2 rest

/-- The per-node pass over `nodes` (validator.py lines 101–140). -/
def nodePass (nodes : List Json) : Except PyErr NodeAcc :=
  nodePassAux 0
    { errors := [], node_ids := [], node_types := [], has_trigger := false }
    nodes

/-- The per-edge loop over `edges`, carrying the running index of
`enumerate`. -/
def edgePassAux (node_ids : List Json) (node_types : List (Json × Json))
    (i : Nat) (acc : EdgeAcc) : List Json → Except PyErr EdgeAcc
  | [] => .ok acc
  | e :: rest =>
    match checkEdge node_ids node_types acc i e with
    | .error er => .error er
    | .ok acc2 => edgePassAux node_ids node_types (i + 1) acc2 rest

/-- The per-edge pass over `edges` (validator.py lines 146–183). -/
def edgePass (node_ids : List Json) (node_types : List (Json × Json))
    (init : EdgeAcc) (edges : List Json) : Except PyErr EdgeAcc :=
  edgePassAux node_ids node_types 0 init edges

/-- Final aggregate: conditional nodes with no outgoing edges
(validator.py lines 186–188). -/
def conditionalDefects (node_types : List (Json × Json))
    (outgoing : List (Json × List Json)) : List Defect :=
  node_types.filterMap (fun p =>
    if jsonInStrSet p.2 conditionalKeys ∧ outgoingMem outgoing p.1 = false then
      some (Defect.conditionalNoOutgoing p.1 p.2)
    else none)

/-- Final aggregate: trigger nodes with no outgoing edges
(validator.py lines 191–193). -/
def triggerDefects (node_types : List (Json × Json))
    (outgoing : List (Json × List Json)) : List Defect :=
  node_types.filterMap (fun p =>
    if jsonInStrSet p.2 TRIGGER_TYPES ∧ outgoingMem outgoing p.1 = false then
      some (Defect.triggerNoOutgoing p.1 p.2)
    else none)

/-- `validate_flow` (validator.py lines 75–195), modelled from the point where
`json.loads` has succeeded; returns the defect list in discovery order, or the
Python exception the source would raise.  The early `return errors` after a
missing/invalid `nodes` or `edges` member yields a single-defect list. -/
def validate_flow (flow : Json) : Except PyErr (List Defect) :=
  match flow with
  | Json.obj kvs =>
    match dictGetS kvs "nodes", dictGetS kvs "edges" with
    | Json.arr nlist, Json.arr elist =>
      if nlist.isEmpty then .ok [Defect.noNodes]
      else
        match nodePass nlist with
        | .error e => .error e
        | .ok nacc =>
          let errs1 := nacc.errors ++
            (if nacc.has_trigger then [] else [Defect.noTrigger])
          match edgePass nacc.node_ids nacc.node_types
            { errors := errs1, edge_ids := [], outgoing := [] } elist with
          | .error e => .error e
          | .ok eacc =>
            .ok (eacc.errors ++
              conditionalDefects nacc.node_types eacc.outgoing ++
              triggerDefects nacc.node_types eacc.outgoing)
    | Json.arr _, _ => .ok [Defect.missingEdges]
    | _, _ => .ok [Defect.missingNodes]
  | _ => .ok [Defect.notObject]

/-- `format_errors` ("\n".join of "- e") needs the rendered error strings; the
apostrophe character of the source f-strings is produced via `Char.ofNat 39`
to keep the literals faithful. -/
def apos : String := (Char.ofNat 39).toString

/-- Python `str()` of a parsed JSON value as interpolated into the error
f-strings.  Arrays and dicts are abbreviated (they are unhashable, so every
rendering site that would receive one raises `TypeError` first). -/
def Json.pyStr : Json → String
  | .null => "None"
  | .bool true => "True"
  | .bool false => "False"
  | .num n => toString n
  | .str s => s
  | .arr _ => "[...]"
  | .obj _ => "<dict>"

/-- Render the sorted handle vocabulary (`sorted(valid)` in the source). -/
def renderSortedStrs (xs : List String) : String :=
  "[" ++ String.intercalate ", "
    ((xs.mergeSort (fun a b => decide (a ≤ b))).map (fun v => apos ++ v ++ apos)) ++
  "]"

/-- The error message of a defect, mirroring the f-string at each
`errors.append` site of validator.py. -/
def Defect.toMessage : Defect → String
  | .notObject => "Flow must be a JSON object"
  | .missingNodes => "Missing or invalid " ++ apos ++ "nodes" ++ apos ++ " array"
  | .missingEdges => "Missing or invalid " ++ apos ++ "edges" ++ apos ++ " array"
  | .noNodes => "Flow has no nodes"
  | .nodeNoId i =>
      "Node at index " ++ toString i ++ " has no " ++ apos ++ "id" ++ apos
  | .nodeNoType nid =>
      "Node " ++ apos ++ nid.pyStr ++ apos ++ " has no " ++ apos ++ "type" ++ apos
  | .duplicateNodeId nid => "Duplicate node ID: " ++ apos ++ nid.pyStr ++ apos
  | .unknownType nid ntype =>
      "Node " ++ apos ++ nid.pyStr ++ apos ++ ": unknown type " ++ apos ++
      ntype.pyStr ++ apos
  | .missingField nid ntype f =>
      "Node " ++ apos ++ nid.pyStr ++ apos ++ " (" ++ ntype.pyStr ++
      "): missing required field " ++ apos ++ f ++ apos
  | .missingPosition nid =>
      "Node " ++ apos ++ nid.pyStr ++ apos ++ ": missing " ++ apos ++ "position" ++ apos
  | .noTrigger =>
      "Flow must have at least one trigger node (CommandTriggerNode, MessageTriggerNode, etc.)"
  | .edgeMissingSourceTarget i =>
      "Edge at index " ++ toString i ++ ": missing " ++ apos ++ "source" ++ apos ++
      " or " ++ apos ++ "target" ++ apos
  | .duplicateEdgeId eid => "Duplicate edge ID: " ++ apos ++ eid.pyStr ++ apos
  | .danglingSource ref src =>
      "Edge " ++ apos ++ ref.pyStr ++ apos ++ ": source " ++ apos ++ src.pyStr ++ apos ++
      " does not exist"
  | .danglingTarget ref tgt =>
      "Edge " ++ apos ++ ref.pyStr ++ apos ++ ": target " ++ apos ++ tgt.pyStr ++ apos ++
      " does not exist"
  | .invalidHandle ref handle srcType =>
      "Edge " ++ apos ++ ref.pyStr ++ apos ++ ": invalid sourceHandle " ++ apos ++
      handle.pyStr ++ apos ++ " for " ++ srcType.pyStr ++ " (valid: " ++
      (match srcType with
       | Json.str t =>
           match strLookup CONDITIONAL_HANDLES t with
           | some valid => renderSortedStrs valid
           | none => "[]"
       | _ => "[]") ++ ")"
  | .conditionalNoOutgoing nid ntype =>
      "Node " ++ apos ++ nid.pyStr ++ apos ++ " (" ++ ntype.pyStr ++
      "): conditional node has no outgoing edges"
  | .triggerNoOutgoing nid ntype =>
      "Node " ++ apos ++ nid.pyStr ++ apos ++ " (" ++ ntype.pyStr ++
      "): trigger node has no outgoing edges"

/-- `format_errors` (validator.py lines 198–200). -/
def format_errors (errors : List Defect) : String :=
  String.intercalate "\n" (errors.map (fun e => "- " ++ e.toMessage))

-- ── Agent (agent.py) ─────────────────────────────────────────────────────

/-- A role-tagged conversation message (`SystemMessage` / `HumanMessage` /
`AIMessage` of langchain). -/
inductive Message where
  | system : String → Message
  | human : String → Message
  | ai : String → Message
deriving DecidableEq

/-- `MAX_VALIDATION_RETRIES` (agent.py line 20). -/
def MAX_VALIDATION_RETRIES : Nat := 2

/-- `AgentState` (agent.py lines 25–32); the field defaults mirror the
pydantic `Field(default_factory=...)` defaults. -/
structure AgentState where
  messages : List Message := []
  requirements : List String := []
  flow_json : Option Json := none
  phase : String := "chat"
  turn_count : Nat := 0
  validation_retries : Nat := 0
deriving DecidableEq

/-- The empty session (`AgentState()`). -/
def AgentState.start : AgentState := {}

/-- The external collaborators of the core, passed opaquely:
  * `llm` — the completion service (`ChatOpenAI(...).invoke`), which may fail;
  * `extract_flow_json` — `_extract_flow_json` (regex + `json.loads` +
    shape check over the raw reply text); `some d` means a fenced json block
    parsed and had both `nodes` and `edges` members, `d` being the parsed
    document (the source stores its canonical re-serialization);
  * `strip_flow_json` — `_strip_flow_json` (regex removal of the fenced
    blocks, with the canned fallback text when nothing remains);
  * `json_dumps` — `json.dumps(..., indent=2)` used to show the current
    candidate inside the repair prompt;
  * the two prompt constants of prompts.py (`FLOW_GENERATION_PROMPT` as the
    `.format(requirements=...)` application). -/
structure Env where
  SYSTEM_PROMPT : String
  FLOW_GENERATION_PROMPT : String → String
  llm : List Message → Except PyErr String
  extract_flow_json : String → Option Json
  strip_flow_json : String → String
  json_dumps : Json → String

/-- A partial state-update dict as returned by a LangGraph node; `none` means
the key is absent from the dict. -/
structure Updates where
  messages : List Message := []
  requirements : Option (List String) := none
  flow_json : Option Json := none
  phase : Option String := none
  turn_count : Option Nat := none
  validation_retries : Option Nat := none
deriving DecidableEq

/-- LangGraph state merge: `messages` uses the `add_messages` reducer
(append), every other field overwrites when the key is present. -/
def applyUpdates (s : AgentState) (u : Updates) : AgentState where
  messages := s.messages ++ u.messages
  requirements := u.requirements.getD s.requirements
  flow_json := match u.flow_json with | some f => some f | none => s.flow_json
  phase := u.phase.getD s.phase
  turn_count := u.turn_count.getD s.turn_count
  validation_retries := u.validation_retries.getD s.validation_retries

/-! Python string primitives, modelled over the code-point list `String.data`
with structural recursion (Python strings are sequences of code points).
The built-in `String` functions are avoided because several of them use
well-founded recursion and therefore do not evaluate inside the kernel. -/

/-- Python `str.split(sep)` for a one-character separator. -/
def splitOnCharAux (c : Char) : List Char → List Char → List String
  | [], acc => [String.mk acc.reverse]
  | x :: xs, acc =>
      if x = c then String.mk acc.reverse :: splitOnCharAux c xs []
      else splitOnCharAux c xs (x :: acc)

/-- Python `text.split(sep)` with a one-character separator. -/
def splitOnChar (c : Char) (s : String) : List String :=
  splitOnCharAux c s.toList []

/-- The characters Python `str.strip()` removes. -/
def pyIsSpace (c : Char) : Bool :=
  c = ' ' ∨ c = '\t' ∨ c = '\n' ∨ c = '\r' ∨ c = '\x0b' ∨ c = '\x0c'

/-- Python `str.strip()`. -/
def pyStrip (s : String) : String :=
  String.mk (((s.toList.dropWhile pyIsSpace).reverse.dropWhile pyIsSpace).reverse)

/-- Python `s.startswith(p)`. -/
def pyStartsWith (s p : String) : Bool :=
  p.toList.isPrefixOf s.toList

/-- Python `s.lstrip(chars)`. -/
def pyLStrip (s : String) (chars : List Char) : String :=
  String.mk (s.toList.dropWhile (fun c => c ∈ chars))

/-- Python `str.lower()`, restricted to ASCII case folding (the non-ASCII
keywords in the catalogue are already lower-case, and no claim depends on
case folding beyond ASCII). -/
def pyLower (s : String) : String :=
  String.mk (s.toList.map Char.toLower)

/-- Python `sub in s` substring test. -/
def containsSubAux (needle : List Char) : List Char → Bool
  | [] => needle.isPrefixOf []
  | c :: rest => needle.isPrefixOf (c :: rest) || containsSubAux needle rest

/-- Python `sub in s` on strings. -/
def strContains (s sub : String) : Bool :=
  containsSubAux sub.toList s.toList

/-- `_extract_requirements` (agent.py lines 216–227). -/
def extract_requirements (response_text : String) (existing : List String) :
    List String :=
  (splitOnChar '\n' response_text).foldl (fun reqs line =>
    let stripped := pyStrip line
    if (["- ", "• ", "* ", "✅ "].any (fun p => pyStartsWith stripped p)) ∧
        10 < stripped.length then
      let req := pyStrip (pyLStrip stripped ['-', '•', '*', ' ', '✅'])
      if req ∉ reqs ∧ req.length < 200 then reqs ++ [req] else reqs
    else reqs) existing

/-- The bot-intent keyword list of `_detect_phase` (agent.py line 205). -/
def bot_keywords : List String :=
  ["bot", "бот", "flow", "флоу", "yaratish", "создать", "create"]

/-- `_phase_instructions` (agent.py lines 177–196). -/
def phase_instructions (s : AgentState) : String :=
  if s.phase = "chat" then
    "\n## Current Phase: CHAT\n" ++
    "You" ++ apos ++ "re chatting with the user. If they mention creating a bot or describe any bot functionality, " ++
    "generate the flow JSON immediately using what they told you. Fill in sensible defaults. " ++
    "Do NOT ask clarifying questions unless the request is completely unclear."
  else if s.phase = "gathering" then
    let reqs :=
      if s.requirements.isEmpty then "None yet"
      else String.intercalate "\n" (s.requirements.map (fun r => "- " ++ r))
    "\n## Current Phase: GATHERING REQUIREMENTS\n" ++
    "Requirements collected so far:\n" ++ reqs ++ "\n\n" ++
    "You have enough context. Generate the flow JSON now. " ++
    "Use sensible defaults for anything not explicitly mentioned."
  else if s.phase = "generating" then
    "\n## Current Phase: GENERATING\nGenerate the flow JSON now."
  else ""

/-- `_detect_phase` (agent.py lines 199–213): what phase the reply text
suggests; note it answers "done" when the reply already carries an
extractable graph document. -/
def detect_phase (env : Env) (s : AgentState) (response_text : String) :
    String :=
  if (env.extract_flow_json response_text).isSome then "done"
  else
    let lower := pyLower response_text
    if s.phase = "chat" then
      if bot_keywords.any (fun k => strContains lower k) then "generating"
      else s.phase
    else if s.phase = "gathering" then "generating"
    else s.phase

/-- `chat_node` (agent.py lines 48–80).  The update dict: `messages` and
`turn_count` always; `phase` when the detected phase differs, overwritten
with "validating" whenever a flow document was extracted; `flow_json` only
when extracted; `requirements` when extraction changed them. -/
def chat_node (env : Env) (s : AgentState) : Except PyErr Updates :=
  match env.llm
    ([Message.system (env.SYSTEM_PROMPT ++ "\n\n" ++ phase_instructions s)] ++
     s.messages) with
  | .error e => .error e
  | .ok response =>
    let new_phase := detect_phase env s response
    let flow_json := env.extract_flow_json response
    let clean_content :=
      if flow_json.isSome then env.strip_flow_json response else response
    let reqs := extract_requirements response s.requirements
    .ok {
      messages := [Message.ai clean_content]
      turn_count := some (s.turn_count + 1)
      phase :=
        (if flow_json.isSome then some "validating"
         else if new_phase ≠ s.phase then some new_phase else none)
      flow_json := flow_json
      requirements := if reqs ≠ s.requirements then some reqs else none }

/-- `generate_flow_node` (agent.py lines 83–108). -/
def generate_flow_node (env : Env) (s : AgentState) : Except PyErr Updates :=
  let req_text :=
    if s.requirements.isEmpty then "See conversation above."
    else String.intercalate "\n" (s.requirements.map (fun r => "- " ++ r))
  match env.llm
    ([Message.system env.SYSTEM_PROMPT] ++ s.messages ++
     [Message.human (env.FLOW_GENERATION_PROMPT req_text)]) with
  | .error e => .error e
  | .ok response =>
    let flow_json := env.extract_flow_json response
    let clean_content :=
      if flow_json.isSome then env.strip_flow_json response else response
    .ok {
      messages := [Message.ai clean_content]
      flow_json := flow_json
      phase := some (if flow_json.isSome then "validating" else "chat") }

/-- `validate_flow_node` (agent.py lines 111–150). -/
def validate_flow_node (env : Env) (s : AgentState) : Except PyErr Updates :=
  match s.flow_json with
  | none => .ok { phase := some "chat" }          -- `if not state.flow_json`
  | some f =>
    match validate_flow f with
    | .error e => .error e
    | .ok errors =>
      if errors.isEmpty then .ok { phase := some "done" }
      else if MAX_VALIDATION_RETRIES ≤ s.validation_retries then
        .ok { phase := some "done" }              -- max retries: accept as-is
      else
        let fix_prompt :=
          "The generated flow JSON has the following validation errors:\n" ++
          format_errors errors ++
          "\n\nHere is the current flow JSON:\n```json\n" ++ env.json_dumps f ++
          "\n```\n\nFix ALL these errors and regenerate the complete flow JSON. " ++
          "Output ONLY the corrected JSON inside ```json ... ``` markers."
        match env.llm
          ([Message.system env.SYSTEM_PROMPT] ++ s.messages ++
           [Message.human fix_prompt]) with
        | .error e => .error e
        | .ok response =>
          let fixed := env.extract_flow_json response
          .ok {
            validation_retries := some (s.validation_retries + 1)
            flow_json := fixed
            phase := some (if fixed.isSome then "validating" else "done") }

/-- `route_after_chat` (agent.py lines 155–160). -/
def route_after_chat (s : AgentState) : String :=
  if s.phase = "generating" then "generate_flow"
  else if s.phase = "validating" then "validate_flow"
  else "end"

/-- `route_after_generate` (agent.py lines 163–166). -/
def route_after_generate (s : AgentState) : String :=
  if s.phase = "validating" then "validate_flow" else "end"

/-- `route_after_validate` (agent.py lines 169–172). -/
def route_after_validate (s : AgentState) : String :=
  if s.phase = "validating" then "validate_flow" else "end"

/-- A validate step that re-enters the loop has strictly increased the retry
counter from below `MAX_VALIDATION_RETRIES` (the termination measure of the
self-loop). -/
theorem validate_step_continue (env : Env) (s : AgentState) (u : Updates)
    (h : validate_flow_node env s = .ok u)
    (hp : route_after_validate (applyUpdates s u) = "validate_flow") :
    s.validation_retries < MAX_VALIDATION_RETRIES ∧
    (applyUpdates s u).validation_retries = s.validation_retries + 1 := by
  have hph : (applyUpdates s u).phase = "validating" := by
    unfold route_after_validate at hp
    by_cases hc : (applyUpdates s u).phase = "validating"
    · exact hc
    · rw [if_neg hc] at hp
      exact absurd hp (by decide)
  clear hp
  unfold validate_flow_node at h
  split at h
  · injection h with h
    subst h
    exact absurd hph (by simp [applyUpdates])
  · split at h
    · simp at h
    · split at h
      · injection h with h
        subst h
        exact absurd hph (by simp [applyUpdates])
      · split at h
        · injection h with h
          subst h
          exact absurd hph (by simp [applyUpdates])
        · simp only [] at h
          split at h
          · simp at h
          · injection h with h
            subst h
            refine ⟨by omega, ?_⟩
            simp [applyUpdates]

/-- The `validating` self-loop of the compiled graph: run `validate_flow_node`
and follow `route_after_validate` until it answers "end".  Returns the final
state together with the number of `validate_flow_node` invocations
(instrumentation used to state the loop bound). -/
def validate_loop (env : Env) (s : AgentState) :
    Except PyErr (AgentState × Nat) :=
  match h : validate_flow_node env s with
  | .error e => .error e
  | .ok u =>
    if hp : route_after_validate (applyUpdates s u) = "validate_flow" then
      match validate_loop env (applyUpdates s u) with
      | .error e => .error e
      | .ok (s2, n) => .ok (s2, n + 1)
    else .ok (applyUpdates s u, 1)
termination_by MAX_VALIDATION_RETRIES + 1 - s.validation_retries
decreasing_by
  have hc := validate_step_continue env s u h hp
  omega

/-- One invocation of the compiled LangGraph (`agent.invoke`): entry node
`chat`, then the conditional edges of `create_agent`. -/
def agent_invoke (env : Env) (s : AgentState) : Except PyErr AgentState :=
  match chat_node env s with
  | .error e => .error e
  | .ok u =>
    let s1 := applyUpdates s u
    if route_after_chat s1 = "generate_flow" then
      match generate_flow_node env s1 with
      | .error e => .error e
      | .ok u2 =>
        let s2 := applyUpdates s1 u2
        if route_after_generate s2 = "validate_flow" then
          match validate_loop env s2 with
          | .error e => .error e
          | .ok (s3, _) => .ok s3
        else .ok s2
    else if route_after_chat s1 = "validate_flow" then
      match validate_loop env s1 with
      | .error e => .error e
      | .ok (s3, _) => .ok s3
    else .ok s1

/-- The `input_state` dict built by `run_agent` (agent.py lines 305–311):
note the dict carries `messages`, `requirements`, `flow_json`, `phase` and
`turn_count` but NOT `validation_retries`, so the graph input starts from the
pydantic default 0. -/
def input_state (s : AgentState) (user_message : String) : AgentState where
  messages := s.messages ++ [Message.human user_message]
  requirements := s.requirements
  flow_json := s.flow_json
  phase := s.phase
  turn_count := s.turn_count
  validation_retries := 0

/-- `run_agent` (agent.py lines 298–321).  The returned `AgentState(...)` is
built from the graph result without passing `validation_retries`, so that
field is the pydantic default 0. -/
def run_agent (env : Env) (user_message : String) (state : Option AgentState) :
    Except PyErr AgentState :=
  let s := state.getD AgentState.start
  match agent_invoke env (input_state s user_message) with
  | .error e => .error e
  | .ok result =>
      .ok {
        messages := result.messages
        requirements := result.requirements
        flow_json := result.flow_json
        phase := result.phase
        turn_count := result.turn_count
        validation_retries := 0 }

-- ── Auxiliary unfolding lemmas for the validating self-loop ──────────────

/-- One-step unfolding of `validate_loop` when the node call fails. -/
theorem validate_loop_eq_of_node_err (env : Env) (s : AgentState) (e : PyErr)
    (hu : validate_flow_node env s = .error e) :
    validate_loop env s = .error e := by
  rw [validate_loop]
  split
  · rename_i e' he
    rw [he] at hu
    injection hu with hu
    rw [hu]
  · rename_i u' hu'
    exact Except.noConfusion (hu'.symm.trans hu)

/-- One-step unfolding of `validate_loop` when the node call returns an
update dict. -/
theorem validate_loop_eq_of_node (env : Env) (s : AgentState) (u : Updates)
    (hu : validate_flow_node env s = .ok u) :
    validate_loop env s =
      (if _h : route_after_validate (applyUpdates s u) = "validate_flow" then
        match validate_loop env (applyUpdates s u) with
        | .error e => .error e
        | .ok (s2, n) => .ok (s2, n + 1)
      else .ok (applyUpdates s u, 1)) := by
  rw [validate_loop]
  split
  · rename_i e' he
    exact Except.noConfusion (he.symm.trans hu)
  · rename_i u' hu'
    rw [hu'] at hu
    injection hu with hu
    subst hu
    rfl

-- ── Concrete collaborators used by counterexamples and witnesses ─────────

/-- A completion service that always answers the fixed text "hello". -/
def llmHello : List Message → Except PyErr String := fun _ => .ok "hello"

/-- A completion service whose call always fails. -/
def llmBoom : List Message → Except PyErr String :=
  fun _ => .error (PyErr.llmFailure "boom")

/-- An extractor that finds no fenced graph document in any reply. -/
def extractNone : String → Option Json := fun _ => none

/-- A graph document with empty `nodes` and `edges` arrays. -/
def flowDoc0 : Json := Json.obj [("nodes", Json.arr []), ("edges", Json.arr [])]

/-- An extractor that finds `flowDoc0` in every reply. -/
def extractFlow0 : String → Option Json := fun _ => some flowDoc0

/-- Baseline environment: reply "hello", nothing extractable. -/
def envHello : Env :=
  { SYSTEM_PROMPT := "", FLOW_GENERATION_PROMPT := fun r => r,
    llm := llmHello, extract_flow_json := extractNone,
    strip_flow_json := fun t => t, json_dumps := fun _ => "" }

/-- Environment whose replies always carry an extractable document. -/
def envFlow : Env := { envHello with extract_flow_json := extractFlow0 }

/-- Environment whose completion calls always fail. -/
def envBoom : Env := { envHello with llm := llmBoom }

/-- A completion service that answers only the turn's first call — the chat
call, whose prompt from the one-message session holds two messages — and
fails every later, longer call (the generation call and the repair calls
carry at least three messages). -/
def llmFirstOnly (reply : String) : List Message → Except PyErr String :=
  fun ms =>
    if ms.length = 2 then .ok reply else .error (PyErr.llmFailure "boom")

/-- Environment whose chat call answers "bot" (routing the turn into flow
generation) and whose flow-generation call fails. -/
def envGenBoom : Env := { envHello with llm := llmFirstOnly "bot" }

/-- A graph document lacking the `nodes` member (exactly one defect, no
exception). -/
def docNoNodes : Json := Json.obj []

/-- Environment whose chat reply carries an extractable defective document
(so the turn enters the validating loop) and whose repair call fails. -/
def envRepairBoom : Env :=
  { envHello with
      llm := llmFirstOnly "hello"
      extract_flow_json := fun _ => some docNoNodes }

/-- A session whose retry counter already sits at the maximum. -/
def s_retry2 : AgentState := { AgentState.start with validation_retries := 2 }

/-- The session value produced by one "hello" turn from the empty session. -/
def S0 : AgentState :=
  { messages := [Message.human "hi", Message.ai "hello"], turn_count := 1 }

-- ── C1 ───────────────────────────────────────────────────────────────────

/-- C1 counterexample.  The claim says that in phase `chat` a reply that
already contains an extractable graph document moves the phase directly to
`done`; on the code, `chat_node` stores phase "validating" in that exact
situation (the update dict's phase key is "validating", not "done"). -/
theorem C1_counterexample :
    (chat_node envFlow AgentState.start).map Updates.phase =
      Except.ok (some "validating") ∧
    (chat_node envFlow AgentState.start).map Updates.phase ≠
      Except.ok (some "done") := by
  constructor
  · rfl
  · decide

/-- C1 amended: in phase `chat`, when the generated reply carries an
extractable graph document, `_detect_phase` answers "done" but `chat_node`
overrides the stored phase with "validating" (entering the validation loop);
the transition taken is `chat → validating`, not `chat → done`. -/
theorem C1_amended_extractable_reply_goes_to_validating
    (env : Env) (s : AgentState) (t : String) (d : Json)
    (hph : s.phase = "chat")
    (hllm : env.llm ([Message.system (env.SYSTEM_PROMPT ++ "\n\n" ++
      phase_instructions s)] ++ s.messages) = .ok t)
    (hex : env.extract_flow_json t = some d) :
    detect_phase env s t = "done" ∧
    chat_node env s = .ok {
      messages := [Message.ai (env.strip_flow_json t)]
      turn_count := some (s.turn_count + 1)
      phase := some "validating"
      flow_json := some d
      requirements :=
        (if extract_requirements t s.requirements ≠ s.requirements then
          some (extract_requirements t s.requirements)
        else none) } := by
  constructor
  · unfold detect_phase
    rw [hex]
    rfl
  · unfold chat_node
    rw [hllm]
    simp [hex]

/-- C1 witness: the amended statement evaluated at a concrete session and
reply. -/
theorem C1_witness :
    detect_phase envFlow AgentState.start "hello" = "done" ∧
    chat_node envFlow AgentState.start = .ok {
      messages := [Message.ai "hello"]
      turn_count := some 1
      phase := some "validating"
      flow_json := some flowDoc0
      requirements := none } := by
  have h := C1_amended_extractable_reply_goes_to_validating envFlow
    AgentState.start "hello" flowDoc0 rfl rfl rfl
  exact ⟨h.1, h.2.trans (by decide)⟩

-- ── C2 ───────────────────────────────────────────────────────────────────

/-- C2: a completion-service failure at ANY of the turn's call sites — the
chat call, the flow-generation call, or a repair call at any depth of the
validating loop — propagates out of `run_agent` as the turn's own failure,
and no updated session is produced (the Session value passed in is a pure
value, so the caller still holds it unchanged and can retry the same turn).
The conjuncts cover each call site and each propagation link of the turn:
(1) the chat call failing fails `chat_node`; (2) the generation call failing
fails `generate_flow_node`; (3) a repair call failing — reached when the
stored candidate has defects and the retry budget is not exhausted — fails
`validate_flow_node`; (4) an entry-node failure aborts the graph run; (5) a
generation-node failure after chat routed to it aborts the graph run; (6) a
validating-loop failure after chat routed to it aborts the graph run; (7) a
validating-loop failure after generation routed to it aborts the graph run;
(8) a node failure at the current loop iterate fails the loop; (9) a loop
failure after a continuing step fails the outer loop, so a repair failure at
any iteration depth propagates; (10) a failed graph run makes `run_agent`
fail with the same error. -/
theorem C2_completion_failure_propagates :
    (∀ (env : Env) (s : AgentState) (e : PyErr),
       env.llm ([Message.system (env.SYSTEM_PROMPT ++ "\n\n" ++
           phase_instructions s)] ++ s.messages) = .error e →
       chat_node env s = .error e) ∧
    (∀ (env : Env) (s : AgentState) (e : PyErr),
       env.llm ([Message.system env.SYSTEM_PROMPT] ++ s.messages ++
           [Message.human (env.FLOW_GENERATION_PROMPT
             (if s.requirements.isEmpty then "See conversation above."
              else String.intercalate "\n"
                (s.requirements.map (fun r => "- " ++ r))))]) = .error e →
       generate_flow_node env s = .error e) ∧
    (∀ (env : Env) (s : AgentState) (e : PyErr) (f : Json)
       (errors : List Defect),
       s.flow_json = some f →
       validate_flow f = .ok errors →
       errors ≠ [] →
       s.validation_retries < MAX_VALIDATION_RETRIES →
       env.llm ([Message.system env.SYSTEM_PROMPT] ++ s.messages ++
           [Message.human
             ("The generated flow JSON has the following validation errors:\n" ++
              format_errors errors ++
              "\n\nHere is the current flow JSON:\n```json\n" ++
              env.json_dumps f ++
              "\n```\n\nFix ALL these errors and regenerate the complete flow JSON. " ++
              "Output ONLY the corrected JSON inside ```json ... ``` markers.")]) =
         .error e →
       validate_flow_node env s = .error e) ∧
    (∀ (env : Env) (s : AgentState) (e : PyErr),
       chat_node env s = .error e → agent_invoke env s = .error e) ∧
    (∀ (env : Env) (s : AgentState) (e : PyErr) (u : Updates),
       chat_node env s = .ok u →
       route_after_chat (applyUpdates s u) = "generate_flow" →
       generate_flow_node env (applyUpdates s u) = .error e →
       agent_invoke env s = .error e) ∧
    (∀ (env : Env) (s : AgentState) (e : PyErr) (u : Updates),
       chat_node env s = .ok u →
       route_after_chat (applyUpdates s u) = "validate_flow" →
       validate_loop env (applyUpdates s u) = .error e →
       agent_invoke env s = .error e) ∧
    (∀ (env : Env) (s : AgentState) (e : PyErr) (u u2 : Updates),
       chat_node env s = .ok u →
       route_after_chat (applyUpdates s u) = "generate_flow" →
       generate_flow_node env (applyUpdates s u) = .ok u2 →
       route_after_generate (applyUpdates (applyUpdates s u) u2) =
         "validate_flow" →
       validate_loop env (applyUpdates (applyUpdates s u) u2) = .error e →
       agent_invoke env s = .error e) ∧
    (∀ (env : Env) (s : AgentState) (e : PyErr),
       validate_flow_node env s = .error e → validate_loop env s = .error e) ∧
    (∀ (env : Env) (s : AgentState) (e : PyErr) (u : Updates),
       validate_flow_node env s = .ok u →
       route_after_validate (applyUpdates s u) = "validate_flow" →
       validate_loop env (applyUpdates s u) = .error e →
       validate_loop env s = .error e) ∧
    (∀ (env : Env) (msg : String) (st : Option AgentState) (e : PyErr),
       agent_invoke env (input_state (st.getD AgentState.start) msg) =
         .error e →
       run_agent env msg st = .error e) := by
  refine ⟨?_, ?_, ?_, ?_, ?_, ?_, ?_, ?_, ?_, ?_⟩
  · intro env s e h
    unfold chat_node
    rw [h]
  · intro env s e h
    simp only [generate_flow_node]
    rw [h]
  · intro env s e f errors hf hv herr hlt hllm
    have h1 : errors.isEmpty = false := by
      cases errors with
      | nil => exact absurd rfl herr
      | cons a l => rfl
    simp only [validate_flow_node, hf, hv, h1, Bool.false_eq_true, if_false]
    rw [if_neg (Nat.not_le.mpr hlt)]
    rw [hllm]
  · intro env s e h
    unfold agent_invoke
    rw [h]
  · intro env s e u hc hr hg
    simp [agent_invoke, hc, hr, hg]
  · intro env s e u hc hr hl
    simp [agent_invoke, hc, hr, hl]
  · intro env s e u u2 hc hr1 hg hr2 hl
    simp [agent_invoke, hc, hr1, hg, hr2, hl]
  · intro env s e h
    exact validate_loop_eq_of_node_err env s e h
  · intro env s e u hn hr hl
    rw [validate_loop_eq_of_node env s u hn, dif_pos hr, hl]
  · intro env msg st e h
    simp [run_agent, h]

/-- C2 witness: a service that fails at the chat call, one that fails at the
flow-generation call, and one that fails at the first repair call each abort
the turn with their own error. -/
theorem C2_witness :
    run_agent envBoom "hi" (some AgentState.start) =
      .error (PyErr.llmFailure "boom") ∧
    run_agent envGenBoom "hi" (some AgentState.start) =
      .error (PyErr.llmFailure "boom") ∧
    run_agent envRepairBoom "hi" (some AgentState.start) =
      .error (PyErr.llmFailure "boom") := by
  obtain ⟨P1, P2, P3, P4, P5, P6, P7, P8, P9, P10⟩ :=
    C2_completion_failure_propagates
  refine ⟨?_, ?_, ?_⟩
  · exact P10 envBoom "hi" (some AgentState.start) (PyErr.llmFailure "boom")
      (P4 envBoom _ _ (P1 envBoom _ _ rfl))
  · exact P10 envGenBoom "hi" (some AgentState.start) (PyErr.llmFailure "boom")
      (P5 envGenBoom _ _ _ rfl rfl (P2 envGenBoom _ _ rfl))
  · exact P10 envRepairBoom "hi" (some AgentState.start)
      (PyErr.llmFailure "boom")
      (P6 envRepairBoom _ _ _ rfl rfl
        (P8 envRepairBoom _ _
          (P3 envRepairBoom _ _ docNoNodes [Defect.missingNodes]
            rfl rfl (by decide) (by decide) rfl)))

-- ── C3 / C4 helpers ──────────────────────────────────────────────────────

/-- `run_agent` rebuilds the returned `AgentState` without passing
`validation_retries`, so the returned counter is the pydantic default 0. -/
theorem run_agent_retries_zero (env : Env) (msg : String)
    (st : Option AgentState) (s' : AgentState)
    (h : run_agent env msg st = .ok s') : s'.validation_retries = 0 := by
  unfold run_agent at h
  simp only [] at h
  split at h
  · simp at h
  · injection h with h
    subst h
    rfl

/-- The update dict of one `validate_flow_node` call either omits
`validation_retries` or sets it to the old value plus one, the latter only
below the maximum. -/
theorem validate_node_retries (env : Env) (s : AgentState) (u : Updates)
    (h : validate_flow_node env s = .ok u) :
    u.validation_retries = none ∨
    (s.validation_retries < MAX_VALIDATION_RETRIES ∧
     u.validation_retries = some (s.validation_retries + 1)) := by
  unfold validate_flow_node at h
  split at h
  · injection h with h
    subst h
    exact Or.inl rfl
  · split at h
    · simp at h
    · split at h
      · injection h with h
        subst h
        exact Or.inl rfl
      · split at h
        · injection h with h
          subst h
          exact Or.inl rfl
        · simp only [] at h
          split at h
          · simp at h
          · injection h with h
            subst h
            exact Or.inr ⟨by omega, rfl⟩

/-- The validating self-loop cannot push the retry counter past the
maximum. -/
theorem validate_loop_retries_le (env : Env) :
    ∀ (k : Nat) (s : AgentState) (p : AgentState × Nat),
      MAX_VALIDATION_RETRIES + 1 - s.validation_retries ≤ k →
      validate_loop env s = .ok p →
      s.validation_retries ≤ MAX_VALIDATION_RETRIES →
      p.1.validation_retries ≤ MAX_VALIDATION_RETRIES := by
  intro k
  induction k with
  | zero =>
    intro s p hk _ hb
    omega
  | succ k ih =>
    intro s p hk hl hb
    rcases hn : validate_flow_node env s with e | u
    · rw [validate_loop_eq_of_node_err env s e hn] at hl
      exact Except.noConfusion hl
    · rw [validate_loop_eq_of_node env s u hn] at hl
      by_cases hp : route_after_validate (applyUpdates s u) = "validate_flow"
      · rw [dif_pos hp] at hl
        obtain ⟨hlt, heq⟩ := validate_step_continue env s u hn hp
        rcases hrec : validate_loop env (applyUpdates s u) with e2 | q
        · rw [hrec] at hl
          exact Except.noConfusion hl
        · rw [hrec] at hl
          obtain ⟨s2, n⟩ := q
          injection hl with hl
          subst hl
          exact ih (applyUpdates s u) (s2, n) (by omega) hrec (by omega)
      · rw [dif_neg hp] at hl
        injection hl with hl
        subst hl
        rcases validate_node_retries env s u hn with h0 | ⟨hlt, h1⟩
        · simpa [applyUpdates, h0] using hb
        · simp [applyUpdates, h1]
          omega

-- ── C3 ───────────────────────────────────────────────────────────────────

/-- C3: the retry counter never exceeds `MAX_VALIDATION_RETRIES` (2): a
validate step leaves it unchanged or increments it only when strictly below
the maximum; hence the self-loop preserves the bound, and a whole processed
turn returns a session whose counter is within the bound. -/
theorem C3_validation_retries_never_exceed_max :
    (∀ (env : Env) (s : AgentState) (u : Updates),
       validate_flow_node env s = .ok u →
       (applyUpdates s u).validation_retries = s.validation_retries ∨
       (s.validation_retries < MAX_VALIDATION_RETRIES ∧
        (applyUpdates s u).validation_retries = s.validation_retries + 1)) ∧
    (∀ (env : Env) (s : AgentState) (p : AgentState × Nat),
       validate_loop env s = .ok p →
       s.validation_retries ≤ MAX_VALIDATION_RETRIES →
       p.1.validation_retries ≤ MAX_VALIDATION_RETRIES) ∧
    (∀ (env : Env) (msg : String) (st : Option AgentState) (s' : AgentState),
       run_agent env msg st = .ok s' →
       s'.validation_retries ≤ MAX_VALIDATION_RETRIES) := by
  refine ⟨?_, ?_, ?_⟩
  · intro env s u h
    rcases validate_node_retries env s u h with h0 | ⟨hlt, h1⟩
    · exact Or.inl (by simp [applyUpdates, h0])
    · exact Or.inr ⟨hlt, by simp [applyUpdates, h1]⟩
  · intro env s p hl hb
    exact validate_loop_retries_le env (MAX_VALIDATION_RETRIES + 1) s p
      (by omega) hl hb
  · intro env msg st s' h
    rw [run_agent_retries_zero env msg st s' h]
    exact Nat.zero_le _

/-- C3 witness: the turn-level bound evaluated on a concrete run. -/
theorem C3_witness : S0.validation_retries ≤ MAX_VALIDATION_RETRIES :=
  C3_validation_retries_never_exceed_max.2.2 envHello "hi"
    (some AgentState.start) S0 rfl

-- ── C4 ───────────────────────────────────────────────────────────────────

/-- C4 counterexample.  The claim says processing a turn never sets
`validationRetries` back to 0; on the code, a session entering a turn with
the counter at 2 comes back with the counter at 0 (`run_agent` drops the
field from both the graph input dict and the returned `AgentState`). -/
theorem C4_counterexample :
    s_retry2.validation_retries = 2 ∧
    (run_agent envHello "hi" (some s_retry2)).map AgentState.validation_retries
      = Except.ok 0 := by
  exact ⟨rfl, rfl⟩

/-- C4 amended: every successfully processed user message returns a session
with `validationRetries` = 0 — the counter is reset on every turn (it only
persists within a single turn's validation loop), not only on a full session
reset. -/
theorem C4_amended_every_turn_resets_retries
    (env : Env) (msg : String) (st : Option AgentState) (s' : AgentState)
    (h : run_agent env msg st = .ok s') : s'.validation_retries = 0 :=
  run_agent_retries_zero env msg st s' h

/-- C4 witness: the amended statement evaluated on a concrete run. -/
theorem C4_witness : S0.validation_retries = 0 :=
  C4_amended_every_turn_resets_retries envHello "hi"
    (some AgentState.start) S0 rfl

-- ── C5 helpers ───────────────────────────────────────────────────────────

/-- `validate_flow_node` answers a bare phase-done update when the document
validates cleanly or the retry budget is exhausted. -/
theorem validate_flow_node_done (env : Env) (s : AgentState) (f : Json)
    (es : List Defect) (hf : s.flow_json = some f)
    (hv : validate_flow f = .ok es)
    (hdone : es.isEmpty = true ∨
      MAX_VALIDATION_RETRIES ≤ s.validation_retries) :
    validate_flow_node env s = .ok { phase := some "done" } := by
  rcases hdone with hd | hd
  · simp [validate_flow_node, hf, hv, hd]
  · by_cases he : es.isEmpty
    · simp [validate_flow_node, hf, hv, he]
    · simp [validate_flow_node, hf, hv, he, hd]

/-- `validate_flow_node` in the repair branch: defects remain, budget left,
service answers; the update increments the retry counter and re-enters
validation exactly when the repair reply carries an extractable document. -/
theorem validate_flow_node_repair (env : Env) (s : AgentState) (f : Json)
    (es : List Defect) (hf : s.flow_json = some f)
    (hv : validate_flow f = .ok es) (hne : es.isEmpty = false)
    (hr : s.validation_retries < MAX_VALIDATION_RETRIES)
    (hllm : ∀ m, ∃ t, env.llm m = .ok t) :
    ∃ t, validate_flow_node env s = .ok {
      validation_retries := some (s.validation_retries + 1)
      flow_json := env.extract_flow_json t
      phase := some (if (env.extract_flow_json t).isSome then "validating"
        else "done") } := by
  obtain ⟨t, ht⟩ := hllm
    ([Message.system env.SYSTEM_PROMPT] ++ s.messages ++
     [Message.human
       ("The generated flow JSON has the following validation errors:\n" ++
        format_errors es ++
        "\n\nHere is the current flow JSON:\n```json\n" ++ env.json_dumps f ++
        "\n```\n\nFix ALL these errors and regenerate the complete flow JSON. " ++
        "Output ONLY the corrected JSON inside ```json ... ``` markers.")])
  refine ⟨t, ?_⟩
  simp only [List.cons_append, List.nil_append, List.append_assoc] at ht
  simp [validate_flow_node, hf, hv, hne, Nat.not_le.mpr hr, ht]

/-- Fuel-indexed form of the loop-termination statement: the validating
self-loop reaches `done` within the remaining retry budget. -/
theorem validate_loop_done_aux (env : Env)
    (hllm : ∀ m, ∃ t, env.llm m = .ok t)
    (hvx : ∀ t d, env.extract_flow_json t = some d →
      ∃ es, validate_flow d = .ok es) :
    ∀ (k : Nat) (s : AgentState) (f : Json),
      s.flow_json = some f →
      (∃ es, validate_flow f = .ok es) →
      MAX_VALIDATION_RETRIES + 1 - s.validation_retries ≤ k →
      ∃ s' n, validate_loop env s = .ok (s', n) ∧ s'.phase = "done" ∧
        (n ≤ MAX_VALIDATION_RETRIES + 1 - s.validation_retries ∨ n = 1) := by
  intro k
  induction k with
  | zero =>
    intro s f hf hv hk
    obtain ⟨es, hves⟩ := hv
    have hd : validate_flow_node env s = .ok { phase := some "done" } :=
      validate_flow_node_done env s f es hf hves (Or.inr (by omega))
    refine ⟨applyUpdates s { phase := some "done" }, 1, ?_, ?_, Or.inr rfl⟩
    · rw [validate_loop_eq_of_node env s _ hd, dif_neg]
      simp [route_after_validate, applyUpdates]
    · simp [applyUpdates]
  | succ k ih =>
    intro s f hf hv hk
    obtain ⟨es, hves⟩ := hv
    by_cases hdone : es.isEmpty = true ∨
        MAX_VALIDATION_RETRIES ≤ s.validation_retries
    · have hd := validate_flow_node_done env s f es hf hves hdone
      refine ⟨applyUpdates s { phase := some "done" }, 1, ?_, ?_, Or.inr rfl⟩
      · rw [validate_loop_eq_of_node env s _ hd, dif_neg]
        simp [route_after_validate, applyUpdates]
      · simp [applyUpdates]
    · push_neg at hdone
      obtain ⟨hne, hr⟩ := hdone
      obtain ⟨t, hnode⟩ := validate_flow_node_repair env s f es hf hves
        (by simpa using hne) (by omega) hllm
      rcases hext : env.extract_flow_json t with _ | d
      · rw [hext] at hnode
        simp only [Option.isSome_none, Bool.false_eq_true, if_false] at hnode
        refine ⟨applyUpdates s
          { validation_retries := some (s.validation_retries + 1),
            flow_json := none, phase := some "done" }, 1, ?_, ?_, Or.inr rfl⟩
        · rw [validate_loop_eq_of_node env s _ hnode, dif_neg]
          simp [route_after_validate, applyUpdates]
        · simp [applyUpdates]
      · rw [hext] at hnode
        simp only [Option.isSome_some, if_true] at hnode
        have hs2 : (applyUpdates s
            { validation_retries := some (s.validation_retries + 1),
              flow_json := some d,
              phase := some "validating" }).flow_json = some d := by
          simp [applyUpdates]
        obtain ⟨s', n, hrec, hph, hb⟩ := ih (applyUpdates s
            { validation_retries := some (s.validation_retries + 1),
              flow_json := some d, phase := some "validating" }) d hs2
          (hvx t d hext) (by simp [applyUpdates]; omega)
        refine ⟨s', n + 1, ?_, hph, ?_⟩
        · rw [validate_loop_eq_of_node env s _ hnode, dif_pos, hrec]
          simp [route_after_validate, applyUpdates]
        · simp [applyUpdates] at hb
          omega

-- ── C5 ───────────────────────────────────────────────────────────────────

/-- C5 counterexample.  The claim says the validating/repair loop always
exits with phase `done` for every candidate document; on the code, a
candidate whose `nodes` entry is not an object (here the number 5 — accepted
by the extractor, which only checks that `nodes` and `edges` members exist)
makes the validator raise `AttributeError`, so the loop aborts with an
exception rather than reaching `done`. -/
theorem C5_counterexample :
    validate_loop envHello
      { AgentState.start with
        flow_json := some (Json.obj [("nodes", Json.arr [Json.num 5]),
          ("edges", Json.arr [])]),
        phase := "validating" } = .error PyErr.attributeError := by
  rw [validate_loop]
  rfl

/-- C5 amended: provided the completion service answers every call and the
validator returns a defect list (rather than raising) on the current
candidate and on every extractable repair document, the validating/repair
self-loop performs at most `1 + MAX_VALIDATION_RETRIES` validations and
exits with phase `done` — with zero defects or with the best-effort
document. -/
theorem C5_amended_loop_bounded_and_done
    (env : Env) (s : AgentState) (f : Json)
    (hf : s.flow_json = some f)
    (hllm : ∀ m, ∃ t, env.llm m = .ok t)
    (hv : ∃ es, validate_flow f = .ok es)
    (hvx : ∀ t d, env.extract_flow_json t = some d →
        ∃ es, validate_flow d = .ok es) :
    ∃ s' n, validate_loop env s = .ok (s', n) ∧ s'.phase = "done" ∧
      n ≤ 1 + MAX_VALIDATION_RETRIES := by
  obtain ⟨s', n, h1, h2, h3⟩ := validate_loop_done_aux env hllm hvx
    (MAX_VALIDATION_RETRIES + 1) s f hf hv (by omega)
  exact ⟨s', n, h1, h2, by omega⟩

/-- A session holding the empty-arrays candidate, about to validate. -/
def s_flow0 : AgentState :=
  { AgentState.start with flow_json := some flowDoc0, phase := "validating" }

/-- C5 witness: the amended statement evaluated on a concrete session whose
candidate has empty nodes/edges arrays. -/
theorem C5_witness :
    (validate_loop envHello s_flow0).map (fun p => p.1.phase) = .ok "done" := by
  obtain ⟨s', n, h1, h2, _⟩ := C5_amended_loop_bounded_and_done envHello
    s_flow0 flowDoc0 rfl (fun _ => ⟨"hello", rfl⟩) ⟨[Defect.noNodes], rfl⟩
    (fun t d h => Option.noConfusion h)
  rw [h1]
  simp [Except.map, h2]

-- ── C6 ───────────────────────────────────────────────────────────────────

/-- C6 counterexample.  The claim says a document missing both `nodes` and
`edges` yields two defects (one per missing member); on the code,
`validate_flow` returns immediately after the `nodes` defect, so the empty
object gets exactly one defect. -/
theorem C6_counterexample :
    validate_flow (Json.obj []) = .ok [Defect.missingNodes] ∧
    [Defect.missingNodes].length ≠ 2 := by
  exact ⟨rfl, by decide⟩

/-- C6 amended: validation halts at the first missing/invalid member and
returns exactly one defect — for `nodes` when `nodes` is missing or not an
array (even if `edges` is also missing), otherwise for `edges`; it never
raises on such documents. -/
theorem C6_amended_first_missing_member_halts :
    (∀ kvs : List (String × Json),
       (∀ nl, dictGetS kvs "nodes" ≠ Json.arr nl) →
       validate_flow (Json.obj kvs) = .ok [Defect.missingNodes]) ∧
    (∀ (kvs : List (String × Json)) (nl : List Json),
       dictGetS kvs "nodes" = Json.arr nl →
       (∀ el, dictGetS kvs "edges" ≠ Json.arr el) →
       validate_flow (Json.obj kvs) = .ok [Defect.missingEdges]) := by
  constructor
  · intro kvs hno
    rcases hn : dictGetS kvs "nodes" with _ | b | n | t | nl | o
    · simp only [validate_flow, hn]
    · simp only [validate_flow, hn]
    · simp only [validate_flow, hn]
    · simp only [validate_flow, hn]
    · exact absurd hn (hno nl)
    · simp only [validate_flow, hn]
  · intro kvs nl hn hne
    rcases he : dictGetS kvs "edges" with _ | b | n | t | el | o
    · simp only [validate_flow, hn, he]
    · simp only [validate_flow, hn, he]
    · simp only [validate_flow, hn, he]
    · simp only [validate_flow, hn, he]
    · exact absurd he (hne el)
    · simp only [validate_flow, hn, he]

/-- C6 witness: the amended statement on a document with only an `edges`
member. -/
theorem C6_witness :
    validate_flow (Json.obj [("edges", Json.arr [])]) =
      .ok [Defect.missingNodes] :=
  C6_amended_first_missing_member_halts.1 [("edges", Json.arr [])]
    (fun nl h => by simp [dictGetS] at h)

-- ── C7 ───────────────────────────────────────────────────────────────────

/-- A node record with id "a", type PauseNode and a position. -/
def pnode : Json :=
  Json.obj [("id", Json.str "a"), ("type", Json.str "PauseNode"),
            ("position", Json.num 0)]

/-- A document whose three nodes all share the id "a". -/
def doc3 : Json :=
  Json.obj [("nodes", Json.arr [pnode, pnode, pnode]), ("edges", Json.arr [])]

/-- Recognizer for duplicate-node-id defects. -/
def isDupNodeDefect : Defect → Bool
  | .duplicateNodeId _ => true
  | _ => false

/-- C7 counterexample.  The claim says exactly one duplicate-id defect is
emitted per repeated id; on the code, an id carried by three nodes is
reported twice (once per occurrence after the first), so one repeated id
yields two duplicate-id defects. -/
theorem C7_counterexample :
    validate_flow doc3 =
      .ok [Defect.duplicateNodeId (Json.str "a"),
           Defect.duplicateNodeId (Json.str "a"), Defect.noTrigger] ∧
    List.countP isDupNodeDefect
      [Defect.duplicateNodeId (Json.str "a"),
       Defect.duplicateNodeId (Json.str "a"), Defect.noTrigger] = 2 ∧
    (2 : Nat) ≠ 1 := by
  exact ⟨rfl, rfl, by decide⟩

/-- A document with exactly two nodes sharing the id `a`. -/
def doc2 (a : String) : Json :=
  Json.obj [("nodes", Json.arr
    [Json.obj [("id", Json.str a), ("type", Json.str "PauseNode"),
               ("position", Json.num 0)],
     Json.obj [("id", Json.str a), ("type", Json.str "PauseNode"),
               ("position", Json.num 0)]]),
    ("edges", Json.arr [])]

/-- C7 amended: one duplicate-id defect is emitted per repeated occurrence
beyond the first (k occurrences of an id give k−1 defects); in particular a
document with exactly two nodes sharing one id yields exactly one
duplicate-id defect. -/
theorem C7_amended_two_nodes_one_dup_defect (a : String) (ha : a ≠ "") :
    validate_flow (doc2 a) =
      .ok [Defect.duplicateNodeId (Json.str a), Defect.noTrigger] ∧
    List.countP isDupNodeDefect
      [Defect.duplicateNodeId (Json.str a), Defect.noTrigger] = 1 := by
  constructor
  · unfold doc2 validate_flow
    simp only [dictGetS, if_pos, if_neg, List.isEmpty]
    simp [nodePass, nodePassAux, checkNode, dictGetS, dictMemS, Json.truthy,
      ha, jmem, jsonInStrSet, strLookup, dictSetJ, Json.hashable,
      ALL_NODE_TYPES, TRIGGER_TYPES, REQUIRED_FIELDS,
      edgePass, edgePassAux, conditionalDefects, triggerDefects,
      conditionalKeys, CONDITIONAL_HANDLES, outgoingMem]
  · rfl

/-- C7 witness: the amended statement at the concrete shared id "n1". -/
theorem C7_witness :
    validate_flow (doc2 "n1") =
      .ok [Defect.duplicateNodeId (Json.str "n1"), Defect.noTrigger] ∧
    List.countP isDupNodeDefect
      [Defect.duplicateNodeId (Json.str "n1"), Defect.noTrigger] = 1 :=
  C7_amended_two_nodes_one_dup_defect "n1" (by decide)

-- ── C10 ──────────────────────────────────────────────────────────────────

/-- C10: the validator treats an empty-string identity field exactly like an
absent one (both are falsy): a node whose `id` is falsy gets only the
missing-id defect and is skipped for every remaining per-node check (the
accumulated sets are untouched); a node with a truthy `id` but falsy `type`
gets only the missing-type defect; an edge whose `source` or `target` is
falsy gets only the missing-source-or-target defect and is skipped for the
remaining per-edge checks. -/
theorem C10_empty_string_is_treated_as_absent :
    (∀ (acc : NodeAcc) (i : Nat) (kvs : List (String × Json)) (v : Json),
       v.truthy = false → dictGetS kvs "id" = v →
       checkNode acc i (Json.obj kvs) =
         .ok { acc with errors := acc.errors ++ [Defect.nodeNoId i] }) ∧
    (∀ (acc : NodeAcc) (i : Nat) (kvs : List (String × Json)) (a : String)
       (v : Json),
       a ≠ "" → dictGetS kvs "id" = Json.str a →
       v.truthy = false → dictGetS kvs "type" = v →
       checkNode acc i (Json.obj kvs) =
         .ok { acc with errors :=
           acc.errors ++ [Defect.nodeNoType (Json.str a)] }) ∧
    (∀ (nids : List Json) (ntypes : List (Json × Json)) (acc : EdgeAcc)
       (i : Nat) (kvs : List (String × Json)),
       ((dictGetS kvs "source").truthy = false ∨
        (dictGetS kvs "target").truthy = false) →
       checkEdge nids ntypes acc i (Json.obj kvs) =
         .ok { acc with errors :=
           acc.errors ++ [Defect.edgeMissingSourceTarget i] }) := by
  refine ⟨?_, ?_, ?_⟩
  · intro acc i kvs v hv hid
    simp [checkNode, hid, hv]
  · intro acc i kvs a v ha hid hv hty
    have htr : (Json.str a).truthy = true := by simp [Json.truthy, ha]
    simp [checkNode, hid, hty, hv, htr]
  · intro nids ntypes acc i kvs hst
    rcases hst with hs | ht
    · simp [checkEdge, hs]
    · simp [checkEdge, ht]

/-- The empty per-node accumulator. -/
def emptyNodeAcc : NodeAcc :=
  { errors := [], node_ids := [], node_types := [], has_trigger := false }

/-- C10 witness: a node whose `id` is the empty string yields exactly the
missing-id defect. -/
theorem C10_witness :
    checkNode emptyNodeAcc 0 (Json.obj [("id", Json.str "")]) =
      .ok { emptyNodeAcc with errors := [Defect.nodeNoId 0] } :=
  C10_empty_string_is_treated_as_absent.1 emptyNodeAcc
    0 [("id", Json.str "")] (Json.str "") (by decide) rfl

-- ── C8 helpers ───────────────────────────────────────────────────────────

/-- Adding an outgoing entry for a key other than `a` keeps `a` absent. -/
theorem outgoingMem_add_ne (o : List (Json × List Json)) (k h a : Json)
    (hne : k ≠ a) (hmem : outgoingMem o a = false) :
    outgoingMem (outgoingAdd o k h) a = false := by
  induction o with
  | nil => simp [outgoingAdd, outgoingMem, hne]
  | cons p rest ih =>
    obtain ⟨k0, hs⟩ := p
    simp only [outgoingMem] at hmem
    by_cases hk : k0 = a
    · rw [if_pos hk] at hmem
      cases hmem
    · rw [if_neg hk] at hmem
      simp only [outgoingAdd]
      by_cases hkk : k0 = k
      · rw [if_pos hkk]
        simp only [outgoingMem, if_neg hk]
        exact hmem
      · rw [if_neg hkk]
        simp only [outgoingMem, if_neg hk]
        exact ih hmem

/-- One edge step only appends to the error list, and when the edge is not
an outgoing edge of `a` it leaves `a` absent from the outgoing table. -/
theorem checkEdge_keeps_no_outgoing (nids : List Json)
    (ntypes : List (Json × Json)) (acc : EdgeAcc) (i : Nat) (e : Json)
    (acc2 : EdgeAcc) (a : Json)
    (h : checkEdge nids ntypes acc i e = .ok acc2)
    (hmem : outgoingMem acc.outgoing a = false)
    (he : ∀ kvs, e = Json.obj kvs →
      ¬((dictGetS kvs "source").truthy = true ∧
        (dictGetS kvs "target").truthy = true ∧
        dictGetS kvs "source" = a)) :
    (∀ d, d ∈ acc.errors → d ∈ acc2.errors) ∧
    outgoingMem acc2.outgoing a = false := by
  rcases e with _ | b | n | t | xs | ekvs
  · exact Except.noConfusion h
  · exact Except.noConfusion h
  · exact Except.noConfusion h
  · exact Except.noConfusion h
  · exact Except.noConfusion h
  · simp only [checkEdge] at h
    split at h
    · injection h with h
      subst h
      exact ⟨fun d hd => by simp [hd], hmem⟩
    · rename_i hst
      split at h
      · exact Except.noConfusion h
      · have hsrc : (dictGetS ekvs "source").truthy = true := by
          rcases Bool.eq_false_or_eq_true (dictGetS ekvs "source").truthy
            with h0 | h0
          · exact h0
          · exact absurd (by simp [h0]) hst
        have htgt : (dictGetS ekvs "target").truthy = true := by
          rcases Bool.eq_false_or_eq_true (dictGetS ekvs "target").truthy
            with h0 | h0
          · exact h0
          · exact absurd (by simp [h0]) hst
        have hsa : dictGetS ekvs "source" ≠ a := by
          intro hx
          exact he ekvs rfl ⟨hsrc, htgt, hx⟩
        split at h
        · exact Except.noConfusion h
        · split at h
          · exact Except.noConfusion h
          · split at h
            · exact Except.noConfusion h
            · rename_i extra hH
              injection h with h
              subst h
              refine ⟨fun d hd => by simp [hd], ?_⟩
              dsimp only
              by_cases hjm : jmem (dictGetS ekvs "source") nids = true
              · rw [if_pos hjm]
                exact outgoingMem_add_ne _ _ _ _ hsa hmem
              · rw [if_neg hjm]
                exact hmem

/-- The edge pass preserves the error list by membership and keeps `a`
outside the outgoing table when no edge in the list leaves `a`. -/
theorem edgePassAux_keeps (nids : List Json) (ntypes : List (Json × Json))
    (a : Json) :
    ∀ (edges : List Json) (i : Nat) (acc eacc : EdgeAcc),
      (∀ e ∈ edges, ∀ kvs, e = Json.obj kvs →
        ¬((dictGetS kvs "source").truthy = true ∧
          (dictGetS kvs "target").truthy = true ∧
          dictGetS kvs "source" = a)) →
      edgePassAux nids ntypes i acc edges = .ok eacc →
      outgoingMem acc.outgoing a = false →
      (∀ d, d ∈ acc.errors → d ∈ eacc.errors) ∧
      outgoingMem eacc.outgoing a = false := by
  intro edges
  induction edges with
  | nil =>
    intro i acc eacc _ hp hmem
    simp only [edgePassAux] at hp
    injection hp with hp
    subst hp
    exact ⟨fun d hd => hd, hmem⟩
  | cons e rest ih =>
    intro i acc eacc hall hp hmem
    simp only [edgePassAux] at hp
    rcases hce : checkEdge nids ntypes acc i e with er | acc1
    · rw [hce] at hp
      exact Except.noConfusion hp
    · rw [hce] at hp
      obtain ⟨hmono1, hm1⟩ := checkEdge_keeps_no_outgoing nids ntypes acc i e
        acc1 a hce hmem (fun kvs hk => hall e (List.mem_cons_self e rest) kvs hk)
      obtain ⟨hmono2, hm2⟩ := ih (i + 1) acc1 eacc
        (fun e' he' kvs hk => hall e' (List.mem_cons_of_mem e he') kvs hk)
        hp hm1
      exact ⟨fun d hd => hmono2 d (hmono1 d hd), hm2⟩

-- ── C8 ───────────────────────────────────────────────────────────────────

/-- The document whose only node carries id `a` and type `t`, with the given
edge list. -/
def singleCondDoc (a t : String) (edges : List Json) : Json :=
  Json.obj [("nodes", Json.arr [Json.obj [("id", Json.str a),
    ("type", Json.str t), ("position", Json.num 0)]]),
    ("edges", Json.arr edges)]

/-- C8: a document whose only node is of a conditional type (a key of
`CONDITIONAL_HANDLES`) and whose edge list gives that node zero outgoing
edges is flagged with both the no-entry-point defect and the
conditional-node-has-no-outgoing-edges defect. -/
theorem C8_conditional_only_node_both_defects
    (a t : String) (edges : List Json) (es : List Defect)
    (ha : a ≠ "") (ht : t ∈ conditionalKeys)
    (hno : ∀ e ∈ edges, ∀ kvs, e = Json.obj kvs →
      ¬((dictGetS kvs "source").truthy = true ∧
        (dictGetS kvs "target").truthy = true ∧
        dictGetS kvs "source" = Json.str a))
    (hok : validate_flow (singleCondDoc a t edges) = .ok es) :
    Defect.noTrigger ∈ es ∧
    Defect.conditionalNoOutgoing (Json.str a) (Json.str t) ∈ es := by
  have ht' : t = "IfConditionNode" ∨ t = "ForLoopNode" ∨
      t = "ForLoopContinueNode" ∨ t = "LoadCollectionItemNode" ∨
      t = "CheckMembershipNode" ∨ t = "RandomNode" := by
    simpa [conditionalKeys, CONDITIONAL_HANDLES] using ht
  rcases ht' with rfl | rfl | rfl | rfl | rfl | rfl <;>
  · simp +decide [singleCondDoc, validate_flow, dictGetS, nodePass,
      nodePassAux, checkNode, dictMemS, Json.truthy, ha, Json.hashable,
      jmem, jsonInStrSet, strLookup, dictSetJ, REQUIRED_FIELDS,
      ALL_NODE_TYPES, TRIGGER_TYPES] at hok
    split at hok
    · exact Except.noConfusion hok
    · rename_i eacc hE
      injection hok with hok
      subst hok
      simp only [edgePass] at hE
      obtain ⟨hmono, hout⟩ := edgePassAux_keeps _ _ (Json.str a) edges 0 _
        eacc hno hE rfl
      constructor
      · have hm : Defect.noTrigger ∈ eacc.errors := hmono _ (by simp)
        simp [List.mem_append, hm]
      · simp +decide [List.mem_append, conditionalDefects, hout,
          conditionalKeys, CONDITIONAL_HANDLES, jsonInStrSet]

/-- C8 witness: the single IfConditionNode document with no edges. -/
theorem C8_witness :
    Defect.noTrigger ∈
      [Defect.noTrigger,
       Defect.conditionalNoOutgoing (Json.str "n1")
         (Json.str "IfConditionNode")] ∧
    Defect.conditionalNoOutgoing (Json.str "n1") (Json.str "IfConditionNode") ∈
      [Defect.noTrigger,
       Defect.conditionalNoOutgoing (Json.str "n1")
         (Json.str "IfConditionNode")] :=
  C8_conditional_only_node_both_defects "n1" "IfConditionNode" [] _
    (by decide) (by decide)
    (fun e he => absurd he (List.not_mem_nil e)) rfl

-- ── C9 ───────────────────────────────────────────────────────────────────

/-- A document with one command-trigger node whose only edge dangles: the
edge leaves the node but its target names no declared node. -/
def trigDoc (a tgt : String) : Json :=
  Json.obj [("nodes", Json.arr [Json.obj [("id", Json.str a),
    ("type", Json.str "CommandTriggerNode"),
    ("data", Json.obj [("command", Json.str "/start")]),
    ("position", Json.num 0)]]),
   ("edges", Json.arr [Json.obj [("id", Json.str "e1"),
    ("source", Json.str a), ("target", Json.str tgt)]])]

/-- A document with one if-condition node whose only edge dangles, carrying
the valid sourceHandle "true". -/
def condDoc (a tgt : String) : Json :=
  Json.obj [("nodes", Json.arr [Json.obj [("id", Json.str a),
    ("type", Json.str "IfConditionNode"), ("position", Json.num 0)]]),
   ("edges", Json.arr [Json.obj [("id", Json.str "e1"),
    ("source", Json.str a), ("target", Json.str tgt),
    ("sourceHandle", Json.str "true")]])]

/-- C9: an edge whose source is a declared node id counts as that node's
outgoing edge even when its target resolves to no node: a trigger node (and
likewise a conditional node) whose only edge points at a nonexistent target
gets the dangling-target defect but NOT the no-outgoing-edges defect. -/
theorem C9_dangling_target_still_counts_as_outgoing
    (a tgt : String) (ha : a ≠ "") (htgt : tgt ≠ "") (hne : a ≠ tgt) :
    (validate_flow (trigDoc a tgt) =
       .ok [Defect.danglingTarget (Json.str "e1") (Json.str tgt)] ∧
     Defect.danglingTarget (Json.str "e1") (Json.str tgt) ∈
       [Defect.danglingTarget (Json.str "e1") (Json.str tgt)] ∧
     Defect.triggerNoOutgoing (Json.str a) (Json.str "CommandTriggerNode") ∉
       [Defect.danglingTarget (Json.str "e1") (Json.str tgt)]) ∧
    (validate_flow (condDoc a tgt) =
       .ok [Defect.noTrigger,
            Defect.danglingTarget (Json.str "e1") (Json.str tgt)] ∧
     Defect.danglingTarget (Json.str "e1") (Json.str tgt) ∈
       [Defect.noTrigger,
        Defect.danglingTarget (Json.str "e1") (Json.str tgt)] ∧
     Defect.conditionalNoOutgoing (Json.str a) (Json.str "IfConditionNode") ∉
       [Defect.noTrigger,
        Defect.danglingTarget (Json.str "e1") (Json.str tgt)]) := by
  refine ⟨⟨?_, by simp, by simp⟩, ⟨?_, by simp, by simp⟩⟩ <;>
  · simp +decide [trigDoc, condDoc, validate_flow, dictGetS, nodePass,
      nodePassAux, checkNode, dictMemS, Json.truthy, ha, htgt, hne,
      Json.hashable, jmem, jsonInStrSet, strLookup, dictSetJ,
      REQUIRED_FIELDS, ALL_NODE_TYPES, TRIGGER_TYPES, edgePass, edgePassAux,
      checkEdge, handleCheck, CONDITIONAL_HANDLES, conditionalDefects,
      triggerDefects, conditionalKeys, outgoingMem, outgoingAdd, dictGetJ,
      dictMemJ]

/-- C9 witness: the dangling-target documents at concrete ids. -/
theorem C9_witness :
    validate_flow (trigDoc "t1" "ghost") =
      .ok [Defect.danglingTarget (Json.str "e1") (Json.str "ghost")] ∧
    validate_flow (condDoc "t1" "ghost") =
      .ok [Defect.noTrigger,
           Defect.danglingTarget (Json.str "e1") (Json.str "ghost")] := by
  have h := C9_dangling_target_still_counts_as_outgoing "t1" "ghost"
    (by decide) (by decide) (by decide)
  exact ⟨h.1.1, h.2.1⟩
